import Mathlib

/-!
Verification of the `s3_lambda_ses` templates of the
`cloud-infrastructure-templates` repository.

Two Lambda functions are embedded:

* `email_sender.py` — the Upload Notifier: reads three environment
  variables, extracts the bucket name and object key from an S3 event,
  renders a fixed email template and issues a single SES `send_email`
  call, catching only `ClientError`.

* `lambda_fn.py` — the Notification Registrar: a CloudFormation custom
  resource built on `crhelper`.  Its create/update callback overwrites
  the bucket notification configuration with a single Lambda rule; its
  delete callback only logs.  The module binds the name `handler` twice;
  the second binding (the entry point) delegates to the `crhelper`
  dispatcher, which holds references to the decorated callbacks.

The embedding is shallow: `os.environ` is a partial map, the incoming
event is a JSON-like tree, external services are an injected outcome,
and each handler returns the list of outbound service calls it made, the
log lines it printed, and either normal termination or an uncaught
Python exception.
-/

/-- JSON-like values, the shape of a Lambda event payload. -/
inductive JVal where
  | str : String → JVal
  | arr : List JVal → JVal
  | obj : List (String × JVal) → JVal

/-- Dictionary lookup on the field list of a JSON object. -/
def lookupField : List (String × JVal) → String → Option JVal
  | [], _ => none
  | (k, v) :: rest, key => if k = key then some v else lookupField rest key

/-- `d[key]` on a JSON value: `KeyError`/`TypeError` become `none`. -/
def jGet : JVal → String → Option JVal
  | .obj fields, key => lookupField fields key
  | _, _ => none

/-- `xs[i]` on a JSON value: `IndexError`/`TypeError` become `none`. -/
def jIdx : JVal → Nat → Option JVal
  | .arr xs, i => xs.get? i
  | _, _ => none

/-- `event["Records"][0]["s3"]["object"]["key"]` from `email_sender.py`:
the bare subscript chain.  It fails (raises in Python) exactly when an
access fails — missing key, wrong container type, short list — and
otherwise yields whatever value sits at the path, string or not. -/
def eventObjectKey (event : JVal) : Option JVal := do
  let records ← jGet event "Records"
  let r0 ← jIdx records 0
  let s3 ← jGet r0 "s3"
  let o ← jGet s3 "object"
  jGet o "key"

/-- `event["Records"][0]["s3"]["bucket"]["name"]` from `email_sender.py`:
the bare subscript chain, failing exactly when an access fails. -/
def eventBucketName (event : JVal) : Option JVal := do
  let records ← jGet event "Records"
  let r0 ← jIdx records 0
  let s3 ← jGet r0 "s3"
  let b ← jGet s3 "bucket"
  jGet b "name"

mutual

/-- Python `repr` of a JSON-parsed value, as CPython prints it in the
common case: strings single-quoted, lists bracketed, dicts braced. -/
def pyRepr : JVal → String
  | .str s => "\x27" ++ s ++ "\x27"
  | .arr xs => "[" ++ pyReprElems xs ++ "]"
  | .obj fs => "\x7b" ++ pyReprFields fs ++ "\x7d"

/-- Comma-separated `repr`s of list elements. -/
def pyReprElems : List JVal → String
  | [] => ""
  | [x] => pyRepr x
  | x :: y :: xs => pyRepr x ++ ", " ++ pyReprElems (y :: xs)

/-- Comma-separated `key: value` `repr`s of dict entries. -/
def pyReprFields : List (String × JVal) → String
  | [] => ""
  | [(k, v)] => "\x27" ++ k ++ "\x27: " ++ pyRepr v
  | (k, v) :: f :: fs =>
      "\x27" ++ k ++ "\x27: " ++ pyRepr v ++ ", " ++ pyReprFields (f :: fs)

end

/-- Python `str` of a JSON-parsed value, as an f-string interpolates it:
a string is taken verbatim, and any other value prints as its `repr`. -/
def pyStr : JVal → String
  | .str s => s
  | v => pyRepr v

/-- Uncaught Python exceptions the Upload Notifier can raise. -/
inductive PyError where
  | keyError : String → PyError
  | malformedEvent : PyError
deriving DecidableEq

/-- `SUBJECT` of `email_sender.py`. -/
def SUBJECT : String := "File Uploaded to S3 bucket"

/-- `BODY_TEXT` of `email_sender.py` — a fixed string, independent of the
event (the two adjacent Python string literals concatenated). -/
def BODY_TEXT : String :=
  "Amazon SES Test (Python)\r\nThis email was sent with Amazon SES using the AWS SDK for Python (Boto)."

/-- Template text of `BODY_HTML` before the `{BUCKET}` interpolation. -/
def htmlPart1 : String :=
  "<html>\n    <head></head>\n    <body>\n      <h1>A file was uploaded to Bucket: "

/-- Template text of `BODY_HTML` between `{BUCKET}` and `{OBJECT}`. -/
def htmlPart2 : String := "</h1>\n      <p>File name "

/-- Template text of `BODY_HTML` after the `{OBJECT}` interpolation. -/
def htmlPart3 : String :=
  "<p>\n      <p>This email was sent with\n        <a href=\x27https://aws.amazon.com/ses/\x27>Amazon SES</a> using the\n        <a href=\x27https://aws.amazon.com/sdk-for-python/\x27>\n          AWS SDK for Python (Boto)</a>.</p>\n    </body>\n    </html>\n                "

/-- `BODY_HTML` of `email_sender.py`: the f-string with `BUCKET` and
`OBJECT` interpolated into the fixed template. -/
def BODY_HTML (BUCKET OBJECT : String) : String :=
  htmlPart1 ++ BUCKET ++ htmlPart2 ++ OBJECT ++ htmlPart3

/-- `CHARSET` of `email_sender.py`. -/
def CHARSET : String := "UTF-8"

/-- One charset/data pair of the SES `Message` argument. -/
structure EmailContent where
  Charset : String
  Data : String
deriving DecidableEq

/-- One `send_email` call as issued by `email_sender.py`: the
`Destination.ToAddresses` list, the three `Message` parts, the `Source`
address, and the region of the client the call went through. -/
structure SendEmailCall where
  ToAddresses : List String
  Html : EmailContent
  Text : EmailContent
  Subject : EmailContent
  Source : String
  region : String
deriving DecidableEq

/-- Outcome of the SES `send_email` call, injected as a parameter of the
handler: either a response carrying a `MessageId`, or a `ClientError`
whose `response` carries an error message. -/
inductive SesOutcome where
  | ok : String → SesOutcome
  | clientError : String → SesOutcome
deriving DecidableEq

/-- Observable behaviour of one Upload Notifier invocation: the SES
calls issued, the lines printed, and normal return or an uncaught
exception. -/
structure EmailRun where
  calls : List SendEmailCall
  logs : List String
  result : Except PyError Unit

/-- The `handler` of `email_sender.py`.  `env` is `os.environ`; `ses` is
the behaviour of the SES endpoint on this invocation.  The source reads
`sender`, `recipient`, `awsregion`, then the object key, then the bucket
name; the f-string interpolates `str()` of whatever the subscript chains
produced; only `ClientError` from `send_email` is caught. -/
def email_handler (env : String → Option String) (event : JVal)
    (ses : SesOutcome) : EmailRun :=
  match env "sender" with
  | none => ⟨[], [], .error (.keyError "sender")⟩
  | some SENDER =>
    match env "recipient" with
    | none => ⟨[], [], .error (.keyError "recipient")⟩
    | some RECIPIENT =>
      match env "awsregion" with
      | none => ⟨[], [], .error (.keyError "awsregion")⟩
      | some AWS_REGION =>
        match eventObjectKey event with
        | none => ⟨[], [], .error .malformedEvent⟩
        | some OBJECT =>
          match eventBucketName event with
          | none => ⟨[], [], .error .malformedEvent⟩
          | some BUCKET =>
            let call : SendEmailCall :=
              { ToAddresses := [RECIPIENT]
                Html := ⟨CHARSET, BODY_HTML (pyStr BUCKET) (pyStr OBJECT)⟩
                Text := ⟨CHARSET, BODY_TEXT⟩
                Subject := ⟨CHARSET, SUBJECT⟩
                Source := SENDER
                region := AWS_REGION }
            match ses with
            | .clientError msg => ⟨[call], [msg], .ok ()⟩
            | .ok messageId =>
                ⟨[call], ["Email sent! Message ID:", messageId], .ok ()⟩

/-- `hay` contains `needle` as a literal substring. -/
def containsStr (hay needle : String) : Prop :=
  ∃ p s, hay = p ++ needle ++ s

/-- String concatenation concatenates the underlying character lists. -/
theorem strData_append (a b : String) : (a ++ b).data = a.data ++ b.data := rfl

/-- Every character of a literal substring occurs in the enclosing
string. -/
theorem containsStr_mem {hay needle : String} (h : containsStr hay needle) :
    ∀ c ∈ needle.data, c ∈ hay.data := by
  rcases h with ⟨p, s, rfl⟩
  intro c hc
  simp [strData_append]
  exact Or.inr (Or.inl hc)

/-!
Embedding of `lambda_fn.py`, the Notification Registrar.
-/

/-- `event['RequestType']` of a CloudFormation custom-resource event. -/
inductive RequestType where
  | Create | Update | Delete
deriving DecidableEq

/-- `event['ResourceProperties']` as read by `lambda_fn.py`. -/
structure ResourceProperties where
  S3BucketName : String
  FunctionARN : String
deriving DecidableEq

/-- A CloudFormation custom-resource event, restricted to the fields
`lambda_fn.py` reads. -/
structure CfnEvent where
  RequestType : RequestType
  ResourceProperties : ResourceProperties
deriving DecidableEq

/-- One entry of `LambdaFunctionConfigurations`. -/
structure LambdaFunctionConfiguration where
  Id : String
  LambdaFunctionArn : String
  Events : List String
deriving DecidableEq

/-- The `NotificationConfiguration` argument of `bucket_notification.put`. -/
structure NotificationConfiguration where
  LambdaFunctionConfigurations : List LambdaFunctionConfiguration
deriving DecidableEq

/-- One `BucketNotification.put` call against the storage service. -/
structure S3PutCall where
  bucket : String
  config : NotificationConfiguration
deriving DecidableEq

/-- Storage-service state: each bucket's current notification
configuration, if any was ever set. -/
def S3State : Type := String → Option NotificationConfiguration

/-- A `put` overwrites the named bucket's whole notification
configuration, whatever was there before. -/
def s3Put (s : S3State) (bucket : String) (cfg : NotificationConfiguration) :
    S3State :=
  fun b => if b = bucket then some cfg else s b

/-- The response of `bucket_notification.put`, a string-valued dict as
boto3 returns it; `Resp` stands for the Python dict, whose truthiness is
non-emptiness. -/
abbrev Resp : Type := List (String × String)

/-- Model of `json.dumps` on a string-valued dict, as used in the
success log line of `lambda_fn.py`. -/
def jsonDumps (r : Resp) : String :=
  "\x7b" ++
    String.intercalate ", "
      (r.map (fun p => "\x22" ++ p.1 ++ "\x22: \x22" ++ p.2 ++ "\x22")) ++
  "\x7d"

/-- Observable behaviour of one Notification Registrar invocation: the
`put` calls issued, the log lines emitted, the resulting storage state
and the Python return value (`none` models returning `None`). -/
structure NotifyRun where
  calls : List S3PutCall
  logs : List String
  state : S3State
  result : Option Resp

/-- The function values bound during elaboration of `lambda_fn.py`:
the decorated create/update callback (the first `def handler`), the
decorated delete callback (`def delete`), and the module entry point
(the second `def handler`). -/
inductive NotifyFn where
  | createUpdateFn | deleteFn | entryFn
deriving DecidableEq

/-- The registration slots of the `crhelper` `CfnResource` object: the
`@helper.create`, `@helper.update` and `@helper.delete` decorators store
a reference to the function they are applied to. -/
structure HelperRegistry where
  createReg : Option NotifyFn
  updateReg : Option NotifyFn
  deleteReg : Option NotifyFn
deriving DecidableEq

/-- Module-elaboration state of `lambda_fn.py`: the module namespace
(later bindings shadow earlier ones) and the helper's registry. -/
structure ModuleState where
  env : List (String × NotifyFn)
  helper : HelperRegistry

/-- Bind a name in the module namespace, shadowing any earlier binding. -/
def bindName (st : ModuleState) (n : String) (f : NotifyFn) : ModuleState :=
  { st with env := (n, f) :: st.env }

/-- Look a name up in the module namespace (most recent binding wins). -/
def lookupName : List (String × NotifyFn) → String → Option NotifyFn
  | [], _ => none
  | (k, v) :: rest, n => if k = n then some v else lookupName rest n

/-- `@helper.create`: records the function and returns it unchanged. -/
def helperCreateDec (st : ModuleState) (f : NotifyFn) : ModuleState × NotifyFn :=
  ({ st with helper := { st.helper with createReg := some f } }, f)

/-- `@helper.update`: records the function and returns it unchanged. -/
def helperUpdateDec (st : ModuleState) (f : NotifyFn) : ModuleState × NotifyFn :=
  ({ st with helper := { st.helper with updateReg := some f } }, f)

/-- `@helper.delete`: records the function and returns it unchanged. -/
def helperDeleteDec (st : ModuleState) (f : NotifyFn) : ModuleState × NotifyFn :=
  ({ st with helper := { st.helper with deleteReg := some f } }, f)

/-- Elaboration of `lambda_fn.py` top to bottom: the decorated
create/update `handler` (decorators apply innermost first, then the name
is bound), the decorated `delete`, then the second `def handler`, which
rebinds the name to the entry point. -/
def notifyModule : ModuleState :=
  let st0 : ModuleState := ⟨[], ⟨none, none, none⟩⟩
  let p1 := helperUpdateDec st0 .createUpdateFn
  let p2 := helperCreateDec p1.1 p1.2
  let st1 := bindName p2.1 "handler" p2.2
  let p3 := helperDeleteDec st1 .deleteFn
  let st2 := bindName p3.1 "delete" p3.2
  bindName st2 "handler" .entryFn

/-- The decorated create/update callback of `lambda_fn.py`:
reads the bucket name and function ARN from the resource properties,
issues one `put` overwriting the bucket's notification configuration
with the single fixed rule, logs the response when it is truthy, and
returns the response. -/
def create_update (event : CfnEvent) (s3 : S3State) (resp : Resp) : NotifyRun :=
  let bucket_name := event.ResourceProperties.S3BucketName
  let lambda_arn := event.ResourceProperties.FunctionARN
  let cfg : NotificationConfiguration :=
    ⟨[⟨"object-create-permission", lambda_arn, ["s3:ObjectCreated:*"]⟩]⟩
  { calls := [⟨bucket_name, cfg⟩]
    logs := ["Creating or Updating"] ++
      (if resp.isEmpty then [] else ["Created or Updated, " ++ jsonDumps resp])
    state := s3Put s3 bucket_name cfg
    result := some resp }

/-- The decorated delete callback of `lambda_fn.py`: logs and returns
`None`, touching neither the storage service nor its state. -/
def delete_run (s3 : S3State) : NotifyRun :=
  { calls := [], logs := ["Deleted"], state := s3, result := none }

/-- An invocation that does nothing (unreachable fallback for an
unregistered callback or an unbound name). -/
def emptyRun (s3 : S3State) : NotifyRun :=
  { calls := [], logs := [], state := s3, result := none }

/-- Semantics of a registered callback value when `crhelper` invokes it.
`entryFn` is never registered as a callback (see `notifyModule`), so its
branch is an unreachable fallback. -/
def applyCallback : NotifyFn → CfnEvent → S3State → Resp → NotifyRun
  | .createUpdateFn, e, s, r => create_update e s r
  | .deleteFn, _, s, _ => delete_run s
  | .entryFn, _, s, _ => emptyRun s

/-- `helper(event, context)`: the `crhelper` dispatcher routes the event
by its `RequestType` to the callback registered for that lifecycle
phase. -/
def helperCall (reg : HelperRegistry) (e : CfnEvent) (s : S3State)
    (r : Resp) : NotifyRun :=
  match e.RequestType with
  | .Create => match reg.createReg with
    | some f => applyCallback f e s r
    | none => emptyRun s
  | .Update => match reg.updateReg with
    | some f => applyCallback f e s r
    | none => emptyRun s
  | .Delete => match reg.deleteReg with
    | some f => applyCallback f e s r
    | none => emptyRun s

/-- Invoking the Lambda entry point: the platform looks up the
module-level name `handler` after elaboration; the entry function
delegates to `helper(event, context)` with the final registry.  The
second `def handler` has no `return` statement, so the invocation itself
returns `None` whatever the callback returned. -/
def invokeNotifier (e : CfnEvent) (s : S3State) (r : Resp) : NotifyRun :=
  match lookupName notifyModule.env "handler" with
  | some .entryFn => { helperCall notifyModule.helper e s r with result := none }
  | some f => applyCallback f e s r
  | none => emptyRun s

/-!
Shared lemmas and example inputs.
-/

/-- Associativity of string concatenation. -/
theorem strAppend_assoc (a b c : String) : a ++ b ++ c = a ++ (b ++ c) := by
  apply String.ext
  simp [strData_append]

/-- The rendered HTML body contains the bucket name literally. -/
theorem bodyHtml_contains_bucket (B K : String) : containsStr (BODY_HTML B K) B :=
  ⟨htmlPart1, htmlPart2 ++ K ++ htmlPart3, by
    simp only [BODY_HTML, strAppend_assoc]⟩

/-- The rendered HTML body contains the object key literally. -/
theorem bodyHtml_contains_key (B K : String) : containsStr (BODY_HTML B K) K :=
  ⟨htmlPart1 ++ B ++ htmlPart2, htmlPart3, by
    simp only [BODY_HTML, strAppend_assoc]⟩

/-- Reading back the bucket a `put` wrote yields exactly the written
configuration. -/
theorem s3Put_self (s : S3State) (b : String) (cfg : NotificationConfiguration) :
    s3Put s b cfg b = some cfg := by
  simp [s3Put]

/-- Example `os.environ` with all three variables set. -/
def envEx : String → Option String := fun n =>
  if n = "sender" then some "from@example.com"
  else if n = "recipient" then some "to@example.com"
  else if n = "awsregion" then some "us-east-1"
  else none

/-- Example `os.environ` with the `sender` variable missing. -/
def envNoSender : String → Option String := fun n =>
  if n = "recipient" then some "to@example.com"
  else if n = "awsregion" then some "us-east-1"
  else none

/-- Example S3 upload event: bucket `my-upload-bucket`, object key
`report-2024.pdf`. -/
def eventEx : JVal :=
  .obj [("Records", .arr [.obj [("s3", .obj
    [("bucket", .obj [("name", .str "my-upload-bucket")]),
     ("object", .obj [("key", .str "report-2024.pdf")])])]])]

/-- Example event whose first record lacks the `s3` payload. -/
def eventBad : JVal :=
  .obj [("Records", .arr [.obj [("eventSource", .str "aws:s3")]])]

/-!
Claims about the Upload Notifier (`email_sender.py`).
-/

/-- Claim C1: with the `sender`, `recipient` and `awsregion` environment
values present and a well-shaped event, the Upload Notifier issues
exactly one `send_email` call, whose `Source` is the sender value, whose
`Destination.ToAddresses` is exactly the one-element recipient list, and
whose subject, HTML body and text body each carry an explicit UTF-8
charset. -/
theorem C1_single_send_email_call
    (env : String → Option String) (event : JVal) (ses : SesOutcome)
    (sv rv av B K : String)
    (hs : env "sender" = some sv) (hr : env "recipient" = some rv)
    (ha : env "awsregion" = some av)
    (hK : eventObjectKey event = some (JVal.str K))
    (hB : eventBucketName event = some (JVal.str B)) :
    (email_handler env event ses).calls =
      [{ ToAddresses := [rv]
         Html := ⟨"UTF-8", BODY_HTML B K⟩
         Text := ⟨"UTF-8", BODY_TEXT⟩
         Subject := ⟨"UTF-8", SUBJECT⟩
         Source := sv
         region := av }] := by
  unfold email_handler
  rw [hs, hr, ha, hK, hB]
  cases ses <;> rfl

/-- Claim C1 witness: a concrete environment, event and outcome. -/
theorem C1_single_send_email_call_witness :
    (email_handler envEx eventEx (SesOutcome.ok "mid-1")).calls =
      [{ ToAddresses := ["to@example.com"]
         Html := ⟨"UTF-8", BODY_HTML "my-upload-bucket" "report-2024.pdf"⟩
         Text := ⟨"UTF-8", BODY_TEXT⟩
         Subject := ⟨"UTF-8", SUBJECT⟩
         Source := "from@example.com"
         region := "us-east-1" }] :=
  C1_single_send_email_call envEx eventEx (SesOutcome.ok "mid-1")
    "from@example.com" "to@example.com" "us-east-1"
    "my-upload-bucket" "report-2024.pdf" rfl rfl rfl rfl rfl

/-- Claim C3: the HTML body the handler sends is the fixed template with
exactly the event's bucket name and object key interpolated — it
contains both as literal substrings, and every other character belongs
to the fixed template parts, so no other bucket or key value occurs. -/
theorem C3_html_body_exact_values
    (env : String → Option String) (event : JVal) (ses : SesOutcome)
    (sv rv av B K : String)
    (hs : env "sender" = some sv) (hr : env "recipient" = some rv)
    (ha : env "awsregion" = some av)
    (hK : eventObjectKey event = some (JVal.str K))
    (hB : eventBucketName event = some (JVal.str B)) :
    (email_handler env event ses).calls.map (fun c => c.Html.Data) =
      [htmlPart1 ++ B ++ htmlPart2 ++ K ++ htmlPart3] ∧
    containsStr (BODY_HTML B K) B ∧ containsStr (BODY_HTML B K) K := by
  refine ⟨?_, bodyHtml_contains_bucket B K, bodyHtml_contains_key B K⟩
  unfold email_handler
  rw [hs, hr, ha, hK, hB]
  cases ses <;> rfl

/-- Claim C3 witness: a concrete environment, event and outcome. -/
theorem C3_html_body_exact_values_witness :
    (email_handler envEx eventEx (SesOutcome.ok "mid-1")).calls.map
        (fun c => c.Html.Data) =
      [htmlPart1 ++ "my-upload-bucket" ++ htmlPart2 ++ "report-2024.pdf" ++
        htmlPart3] ∧
    containsStr (BODY_HTML "my-upload-bucket" "report-2024.pdf")
      "my-upload-bucket" ∧
    containsStr (BODY_HTML "my-upload-bucket" "report-2024.pdf")
      "report-2024.pdf" :=
  C3_html_body_exact_values envEx eventEx (SesOutcome.ok "mid-1")
    "from@example.com" "to@example.com" "us-east-1"
    "my-upload-bucket" "report-2024.pdf" rfl rfl rfl rfl rfl

/-- Claim C4 counterexample: at a concrete valid event the plain-text
body the handler sends is the fixed `BODY_TEXT`, and that text does not
contain the event's bucket name `my-upload-bucket`, refuting the claim
that both bodies embed the two extracted values. -/
theorem C4_text_body_counterexample :
    (email_handler envEx eventEx (SesOutcome.ok "mid-1")).calls.map
        (fun c => c.Text.Data) = [BODY_TEXT] ∧
    ¬ containsStr BODY_TEXT "my-upload-bucket" := by
  refine ⟨rfl, fun h => ?_⟩
  have hm := containsStr_mem h ('-') (by decide)
  exact absurd hm (by decide)

/-- Claim C4 (amended): the HTML body embeds both extracted values; the
plain-text body is the fixed template text, independent of the event. -/
theorem C4_amended_bodies
    (env : String → Option String) (event : JVal) (ses : SesOutcome)
    (sv rv av B K : String)
    (hs : env "sender" = some sv) (hr : env "recipient" = some rv)
    (ha : env "awsregion" = some av)
    (hK : eventObjectKey event = some (JVal.str K))
    (hB : eventBucketName event = some (JVal.str B)) :
    (email_handler env event ses).calls.map
        (fun c => (c.Html.Data, c.Text.Data)) =
      [(BODY_HTML B K, BODY_TEXT)] ∧
    containsStr (BODY_HTML B K) B ∧ containsStr (BODY_HTML B K) K := by
  refine ⟨?_, bodyHtml_contains_bucket B K, bodyHtml_contains_key B K⟩
  unfold email_handler
  rw [hs, hr, ha, hK, hB]
  cases ses <;> rfl

/-- Claim C4 (amended) witness: a concrete environment, event and
outcome. -/
theorem C4_amended_bodies_witness :
    (email_handler envEx eventEx (SesOutcome.ok "mid-1")).calls.map
        (fun c => (c.Html.Data, c.Text.Data)) =
      [(BODY_HTML "my-upload-bucket" "report-2024.pdf", BODY_TEXT)] ∧
    containsStr (BODY_HTML "my-upload-bucket" "report-2024.pdf")
      "my-upload-bucket" ∧
    containsStr (BODY_HTML "my-upload-bucket" "report-2024.pdf")
      "report-2024.pdf" :=
  C4_amended_bodies envEx eventEx (SesOutcome.ok "mid-1")
    "from@example.com" "to@example.com" "us-east-1"
    "my-upload-bucket" "report-2024.pdf" rfl rfl rfl rfl rfl

/-- Claim C5: when `send_email` raises a `ClientError`, the handler
catches it, prints exactly one log line — the rejection's message — and
returns normally; in particular no success line is printed and no
exception propagates. -/
theorem C5_client_error_caught
    (env : String → Option String) (event : JVal)
    (sv rv av B K msg : String)
    (hs : env "sender" = some sv) (hr : env "recipient" = some rv)
    (ha : env "awsregion" = some av)
    (hK : eventObjectKey event = some (JVal.str K))
    (hB : eventBucketName event = some (JVal.str B)) :
    (email_handler env event (SesOutcome.clientError msg)).result =
      Except.ok () ∧
    (email_handler env event (SesOutcome.clientError msg)).logs = [msg] := by
  unfold email_handler
  rw [hs, hr, ha, hK, hB]
  exact ⟨rfl, rfl⟩

/-- Claim C5 witness: a concrete rejected invocation. -/
theorem C5_client_error_caught_witness :
    (email_handler envEx eventEx
        (SesOutcome.clientError "Email address is not verified.")).result =
      Except.ok () ∧
    (email_handler envEx eventEx
        (SesOutcome.clientError "Email address is not verified.")).logs =
      ["Email address is not verified."] :=
  C5_client_error_caught envEx eventEx
    "from@example.com" "to@example.com" "us-east-1"
    "my-upload-bucket" "report-2024.pdf" "Email address is not verified."
    rfl rfl rfl rfl rfl

/-- Claim C6: if any of the three required environment variables is
absent, the invocation fails with a `KeyError` naming a missing variable
and no `send_email` call is issued. -/
theorem C6_missing_env_fails_before_send
    (env : String → Option String) (event : JVal) (ses : SesOutcome)
    (h : env "sender" = none ∨ env "recipient" = none ∨
      env "awsregion" = none) :
    (∃ name, (name = "sender" ∨ name = "recipient" ∨ name = "awsregion") ∧
      env name = none ∧
      (email_handler env event ses).result =
        Except.error (PyError.keyError name)) ∧
    (email_handler env event ses).calls = [] := by
  unfold email_handler
  cases hs : env "sender" with
  | none => exact ⟨⟨"sender", Or.inl rfl, hs, rfl⟩, rfl⟩
  | some sv =>
    cases hr : env "recipient" with
    | none => exact ⟨⟨"recipient", Or.inr (Or.inl rfl), hr, rfl⟩, rfl⟩
    | some rv =>
      cases ha : env "awsregion" with
      | none => exact ⟨⟨"awsregion", Or.inr (Or.inr rfl), ha, rfl⟩, rfl⟩
      | some av =>
        rcases h with h | h | h
        · rw [hs] at h; exact absurd h (by simp)
        · rw [hr] at h; exact absurd h (by simp)
        · rw [ha] at h; exact absurd h (by simp)

/-- Claim C6 witness: the environment lacking `sender`. -/
theorem C6_missing_env_fails_before_send_witness :
    (∃ name, (name = "sender" ∨ name = "recipient" ∨ name = "awsregion") ∧
      envNoSender name = none ∧
      (email_handler envNoSender eventEx (SesOutcome.ok "mid-1")).result =
        Except.error (PyError.keyError name)) ∧
    (email_handler envNoSender eventEx (SesOutcome.ok "mid-1")).calls = [] :=
  C6_missing_env_fails_before_send envNoSender eventEx (SesOutcome.ok "mid-1")
    (Or.inl rfl)

/-- Claim C7: when the event lacks the expected record path (object key
or bucket name unreachable), the invocation ends in an uncaught
exception and no `send_email` call is issued. -/
theorem C7_malformed_event_propagates
    (env : String → Option String) (event : JVal) (ses : SesOutcome)
    (h : eventObjectKey event = none ∨ eventBucketName event = none) :
    (∃ err, (email_handler env event ses).result = Except.error err) ∧
    (email_handler env event ses).calls = [] := by
  unfold email_handler
  cases hs : env "sender" with
  | none => exact ⟨⟨_, rfl⟩, rfl⟩
  | some sv =>
    cases hr : env "recipient" with
    | none => exact ⟨⟨_, rfl⟩, rfl⟩
    | some rv =>
      cases ha : env "awsregion" with
      | none => exact ⟨⟨_, rfl⟩, rfl⟩
      | some av =>
        cases hK : eventObjectKey event with
        | none => exact ⟨⟨_, rfl⟩, rfl⟩
        | some K =>
          cases hB : eventBucketName event with
          | none => exact ⟨⟨_, rfl⟩, rfl⟩
          | some B =>
            rcases h with h | h
            · rw [hK] at h; exact absurd h (by simp)
            · rw [hB] at h; exact absurd h (by simp)

/-- Claim C7 witness: an event whose first record has no `s3` payload. -/
theorem C7_malformed_event_propagates_witness :
    (∃ err, (email_handler envEx eventBad (SesOutcome.ok "mid-1")).result =
      Except.error err) ∧
    (email_handler envEx eventBad (SesOutcome.ok "mid-1")).calls = [] :=
  C7_malformed_event_propagates envEx eventBad (SesOutcome.ok "mid-1")
    (Or.inl rfl)

/-!
Claims about the Notification Registrar (`lambda_fn.py`).
-/

/-- Claim C2: a create or update event with bucket `B2` and function
identifier `F2` produces exactly one `put` call on `B2` whose
configuration is the single rule `object-create-permission` / `F2` /
`[s3:ObjectCreated:*]`, and afterwards `B2`'s stored configuration is
exactly that rule whatever configuration any prior state held — the call
is a full overwrite. -/
theorem C2_create_update_overwrites
    (e : CfnEvent) (s3 : S3State) (r : Resp)
    (h : e.RequestType = RequestType.Create ∨
      e.RequestType = RequestType.Update) :
    (invokeNotifier e s3 r).calls =
      [⟨e.ResourceProperties.S3BucketName,
        ⟨[⟨"object-create-permission", e.ResourceProperties.FunctionARN,
          ["s3:ObjectCreated:*"]⟩]⟩⟩] ∧
    (invokeNotifier e s3 r).state e.ResourceProperties.S3BucketName =
      some ⟨[⟨"object-create-permission", e.ResourceProperties.FunctionARN,
        ["s3:ObjectCreated:*"]⟩]⟩ := by
  obtain ⟨rt, props⟩ := e
  cases rt with
  | Create => exact ⟨rfl, s3Put_self s3 props.S3BucketName _⟩
  | Update => exact ⟨rfl, s3Put_self s3 props.S3BucketName _⟩
  | Delete => rcases h with h | h <;> exact RequestType.noConfusion h

/-- Claim C2 witness: a concrete create event over a non-trivial prior
state. -/
theorem C2_create_update_overwrites_witness :
    (invokeNotifier ⟨RequestType.Create, ⟨"upload-bkt", "arn:aws:lambda:fn"⟩⟩
        (fun _ => some ⟨[⟨"old-rule", "arn:old", ["s3:ObjectRemoved:*"]⟩]⟩)
        []).calls =
      [⟨"upload-bkt", ⟨[⟨"object-create-permission", "arn:aws:lambda:fn",
        ["s3:ObjectCreated:*"]⟩]⟩⟩] ∧
    (invokeNotifier ⟨RequestType.Create, ⟨"upload-bkt", "arn:aws:lambda:fn"⟩⟩
        (fun _ => some ⟨[⟨"old-rule", "arn:old", ["s3:ObjectRemoved:*"]⟩]⟩)
        []).state "upload-bkt" =
      some ⟨[⟨"object-create-permission", "arn:aws:lambda:fn",
        ["s3:ObjectCreated:*"]⟩]⟩ :=
  C2_create_update_overwrites
    ⟨RequestType.Create, ⟨"upload-bkt", "arn:aws:lambda:fn"⟩⟩
    (fun _ => some ⟨[⟨"old-rule", "arn:old", ["s3:ObjectRemoved:*"]⟩]⟩)
    [] (Or.inl rfl)

/-- Claim C8: a delete event issues no storage call, leaves every
bucket's notification configuration unchanged, and only logs. -/
theorem C8_delete_no_storage_calls
    (e : CfnEvent) (s3 : S3State) (r : Resp)
    (h : e.RequestType = RequestType.Delete) :
    (invokeNotifier e s3 r).calls = [] ∧
    (invokeNotifier e s3 r).logs = ["Deleted"] ∧
    ∀ b, (invokeNotifier e s3 r).state b = s3 b := by
  obtain ⟨rt, props⟩ := e
  cases rt with
  | Delete => exact ⟨rfl, rfl, fun b => rfl⟩
  | Create => exact RequestType.noConfusion h
  | Update => exact RequestType.noConfusion h

/-- Claim C8 witness: a concrete delete event, sampled at the event's
own bucket. -/
theorem C8_delete_no_storage_calls_witness :
    (invokeNotifier ⟨RequestType.Delete, ⟨"upload-bkt", "arn:aws:lambda:fn"⟩⟩
        (fun _ => none) []).calls = [] ∧
    (invokeNotifier ⟨RequestType.Delete, ⟨"upload-bkt", "arn:aws:lambda:fn"⟩⟩
        (fun _ => none) []).logs = ["Deleted"] ∧
    (invokeNotifier ⟨RequestType.Delete, ⟨"upload-bkt", "arn:aws:lambda:fn"⟩⟩
        (fun _ => none) []).state "upload-bkt" = none :=
  have h := C8_delete_no_storage_calls
    ⟨RequestType.Delete, ⟨"upload-bkt", "arn:aws:lambda:fn"⟩⟩
    (fun _ => none) [] rfl
  ⟨h.1, h.2.1, h.2.2 "upload-bkt"⟩

/-- Claim C9: the create/update callback returns the raw `put` response
unchanged, and when that response is truthy (as real boto3 responses
are) it logs the serialized response in its success line. -/
theorem C9_returns_raw_response
    (e : CfnEvent) (s3 : S3State) (r : Resp) (hr : r ≠ []) :
    (create_update e s3 r).result = some r ∧
    (create_update e s3 r).logs =
      ["Creating or Updating", "Created or Updated, " ++ jsonDumps r] := by
  rcases r with _ | ⟨p, t⟩
  · exact absurd rfl hr
  · exact ⟨rfl, rfl⟩

/-- Claim C9 witness: a concrete response dict. -/
theorem C9_returns_raw_response_witness :
    (create_update ⟨RequestType.Create, ⟨"upload-bkt", "arn:aws:lambda:fn"⟩⟩
        (fun _ => none) [("RequestId", "abc-123")]).result =
      some [("RequestId", "abc-123")] ∧
    (create_update ⟨RequestType.Create, ⟨"upload-bkt", "arn:aws:lambda:fn"⟩⟩
        (fun _ => none) [("RequestId", "abc-123")]).logs =
      ["Creating or Updating",
        "Created or Updated, " ++ jsonDumps [("RequestId", "abc-123")]] :=
  C9_returns_raw_response
    ⟨RequestType.Create, ⟨"upload-bkt", "arn:aws:lambda:fn"⟩⟩
    (fun _ => none) [("RequestId", "abc-123")] (by decide)

/-- Claim C10: after module elaboration the name `handler` denotes the
entry point (the second definition shadows the first), yet the create
and update slots of the helper still hold the first definition, which
the decorators registered before the name was rebound; hence on any
create or update event the dispatcher runs exactly the create/update
logic. -/
theorem C10_shadowed_handler_still_dispatched
    (e : CfnEvent) (s3 : S3State) (r : Resp)
    (h : e.RequestType = RequestType.Create ∨
      e.RequestType = RequestType.Update) :
    lookupName notifyModule.env "handler" = some NotifyFn.entryFn ∧
    notifyModule.helper.createReg = some NotifyFn.createUpdateFn ∧
    notifyModule.helper.updateReg = some NotifyFn.createUpdateFn ∧
    helperCall notifyModule.helper e s3 r = create_update e s3 r := by
  refine ⟨rfl, rfl, rfl, ?_⟩
  obtain ⟨rt, props⟩ := e
  cases rt with
  | Create => rfl
  | Update => rfl
  | Delete => rcases h with h | h <;> exact RequestType.noConfusion h

/-- Claim C10 witness: a concrete update event. -/
theorem C10_shadowed_handler_still_dispatched_witness :
    lookupName notifyModule.env "handler" = some NotifyFn.entryFn ∧
    notifyModule.helper.createReg = some NotifyFn.createUpdateFn ∧
    notifyModule.helper.updateReg = some NotifyFn.createUpdateFn ∧
    helperCall notifyModule.helper
        ⟨RequestType.Update, ⟨"upload-bkt", "arn:aws:lambda:fn"⟩⟩
        (fun _ => none) [] =
      create_update ⟨RequestType.Update, ⟨"upload-bkt", "arn:aws:lambda:fn"⟩⟩
        (fun _ => none) [] :=
  C10_shadowed_handler_still_dispatched
    ⟨RequestType.Update, ⟨"upload-bkt", "arn:aws:lambda:fn"⟩⟩
    (fun _ => none) [] (Or.inr rfl)
